import Mathlib

/-!
# Verification of the pixel-duel-game combat core

Shallow embedding of the combat and NPC logic of the repository:

* duel arena (part_010): `calculateDamage`, `scheduleOpponentAttack`, the
  player-side `handleAttack`, `handleGameOver`;
* open world canvas (part_011): the damage roll and defense application in
  `handleAttack`, the cooldown guard in `handleCanvasClick`, the local
  player death/respawn;
* open-space world (part_012): `handlePlayerDeath`, the respawn interval
  pass;
* NPC AI engine (src/utils, `character-renderer-3d.ts`): `findNearestPlayer`,
  `updateAIState`, `determineNextAction`, `processNPCAttack`.

JavaScript `Math.random()` draws are passed in explicitly as rational
parameters `r` with `0 ≤ r < 1`.  Number arithmetic is modelled exactly over
`ℚ`/`ℤ` with `Int.floor` for `Math.floor`.  Euclidean distances are compared
through their squares (`Math.sqrt` is strictly monotone on nonnegative
inputs, so `dist < c ↔ dist² < c²`); the outputs of the random wander/flee
target generators (which involve `Math.cos`/`Math.sin`) are supplied as
oracle parameters, since only *which* field is assigned matters to the
properties below, never the generated coordinates.
-/

/-- The closed enumeration of country classes. -/
inductive Country where
  | usa | japan | uk | russia | brazil
deriving DecidableEq, Repr

/-- Per-class damage range `(min, max)`, from the `WEAPON_DAMAGE` table
(identical in part_010 and part_011). -/
def WEAPON_DAMAGE : Country → ℤ × ℤ
  | .usa => (8, 12)
  | .japan => (10, 15)
  | .uk => (5, 10)
  | .russia => (12, 18)
  | .brazil => (6, 14)

/-- Per-class defense mitigation, from the `DEFENSE_VALUES` table
(identical in part_010 and part_011). -/
def DEFENSE_VALUES : Country → ℚ
  | .usa => 0.2
  | .japan => 0.15
  | .uk => 0.3
  | .russia => 0.1
  | .brazil => 0.25

/-- `ATTACK_COOLDOWN = 1000` ms (part_010 and part_011). -/
def ATTACK_COOLDOWN : ℤ := 1000

/-- `RESPAWN_TIME = 5000` ms (part_011; part_012 writes the literal 5000). -/
def RESPAWN_TIME : ℤ := 5000

/-- Duel arena damage roll (part_010 `calculateDamage`):
`Math.floor(range.min + Math.random() * (range.max - range.min))`. -/
def calculateDamage (c : Country) (r : ℚ) : ℤ :=
  ⌊((WEAPON_DAMAGE c).1 : ℚ) + r * (((WEAPON_DAMAGE c).2 : ℚ) - ((WEAPON_DAMAGE c).1 : ℚ))⌋

/-- Open-world damage roll (part_011 `handleAttack`):
`Math.floor(Math.random() * (range.max - range.min + 1)) + range.min`. -/
def baseDamageRoll (c : Country) (r : ℚ) : ℤ :=
  ⌊r * (((WEAPON_DAMAGE c).2 : ℚ) - ((WEAPON_DAMAGE c).1 : ℚ) + 1)⌋ + (WEAPON_DAMAGE c).1

/-- part_011 `handleAttack`: `isTargetDefending ? 1 - DEFENSE_VALUES[country] : 1`. -/
def defenseMultiplier (c : Country) (isDefending : Bool) : ℚ :=
  if isDefending then 1 - DEFENSE_VALUES c else 1

/-- part_011 `handleAttack`: `Math.floor(baseDamage * defenseMultiplier)`. -/
def finalDamage (base : ℤ) (c : Country) (isDefending : Bool) : ℤ :=
  ⌊(base : ℚ) * defenseMultiplier c isDefending⌋

/-- part_010 `scheduleOpponentAttack` damage application:
`isDefending ? Math.floor(damage * (1 - defenseValue)) : damage`. -/
def scheduleOpponentAttackDamage (oppC playerC : Country) (isDefending : Bool) (r : ℚ) : ℤ :=
  let damage := calculateDamage oppC r
  if isDefending then ⌊(damage : ℚ) * (1 - DEFENSE_VALUES playerC)⌋ else damage

/-- part_010 `scheduleOpponentAttack` health update:
`setPlayerHealth(prev => Math.max(0, prev - actualDamage))`. -/
def scheduleOpponentAttackHealth (prev : ℤ) (oppC playerC : Country)
    (isDefending : Bool) (r : ℚ) : ℤ :=
  max 0 (prev - scheduleOpponentAttackDamage oppC playerC isDefending r)

section FloorLemmas

/-- For `0 ≤ r < 1` and `0 < n`, `⌊r * n⌋` lies in `[0, n-1]`. -/
theorem floor_mul_int_bounds (n : ℤ) (hn : 0 < n) (r : ℚ) (h0 : 0 ≤ r) (h1 : r < 1) :
    0 ≤ ⌊r * (n : ℚ)⌋ ∧ ⌊r * (n : ℚ)⌋ ≤ n - 1 := by
  have hn' : (0 : ℚ) < (n : ℚ) := by exact_mod_cast hn
  constructor
  · exact Int.floor_nonneg.mpr (mul_nonneg h0 hn'.le)
  · have hlt : r * (n : ℚ) < (n : ℚ) := by
      calc r * (n : ℚ) < 1 * (n : ℚ) := by
            exact mul_lt_mul_of_pos_right h1 hn'
        _ = (n : ℚ) := one_mul _
    have := Int.floor_lt.mpr (by exact_mod_cast hlt)
    omega

/-- Every `k ∈ [0, n-1]` is attained by `⌊r * n⌋` for some `r ∈ [0, 1)`. -/
theorem floor_mul_int_attains (n k : ℤ) (hn : 0 < n) (h0 : 0 ≤ k) (hk : k ≤ n - 1) :
    ∃ r : ℚ, 0 ≤ r ∧ r < 1 ∧ ⌊r * (n : ℚ)⌋ = k := by
  have hn' : (0 : ℚ) < (n : ℚ) := by exact_mod_cast hn
  refine ⟨(k : ℚ) / (n : ℚ), ?_, ?_, ?_⟩
  · exact div_nonneg (by exact_mod_cast h0) hn'.le
  · rw [div_lt_one hn']
    exact_mod_cast (by omega : k < n)
  · rw [div_mul_cancel₀ _ hn'.ne.symm]
    exact Int.floor_intCast k

end FloorLemmas

/-- The `OnlinePlayer` record used by the open world and the NPC engine
(part_011 / part_012 / `@/types/game`).  Source ids are non-empty strings;
we index them by naturals. -/
structure OnlinePlayer where
  id : ℕ
  country : Country
  x : ℚ
  y : ℚ
  health : ℤ
  maxHealth : ℤ
  points : ℤ
  lastAttackTime : ℤ
  lastDefendTime : ℤ
  isDefending : Bool
  isAttacking : Bool
  isDead : Bool
  respawnTime : Option ℤ := none
  isNPC : Bool := false
deriving DecidableEq, Repr

/-- Result of part_011 `handleAttack`: the updated target together with the
attacker-side effects (`lastAttackTimeRef.current = now`,
`setPlayerPoints(prev => prev + 1)` on a kill). -/
structure AttackEffect where
  target : OnlinePlayer
  attackerLastAttackTime : ℤ
  attackerPointsGain : ℤ
  killed : Bool
deriving DecidableEq, Repr

/-- part_011 `handleAttack(targetPlayer)` for a present target: rolls class
damage, applies the target's class defense when it is defending, clamps
health at 0, and on a kill marks the target dead, schedules its respawn,
and moves one point (clamped on the victim side). -/
def handleAttack (now : ℤ) (r : ℚ) (playerCountry : Country) (target : OnlinePlayer) :
    AttackEffect :=
  let baseDamage := baseDamageRoll playerCountry r
  let fd := finalDamage baseDamage target.country target.isDefending
  let newHealth := max 0 (target.health - fd)
  if newHealth ≤ 0 then
    { target := { target with
        health := newHealth
        isDead := true
        respawnTime := some (now + RESPAWN_TIME)
        points := max 0 (target.points - 1) }
      attackerLastAttackTime := now
      attackerPointsGain := 1
      killed := true }
  else
    { target := { target with health := newHealth }
      attackerLastAttackTime := now
      attackerPointsGain := 0
      killed := false }

/-- Attacker-side state touched by a part_011 attack request. -/
structure WorldAttackState where
  lastAttackTime : ℤ
  playerPoints : ℤ
  target : OnlinePlayer
deriving DecidableEq, Repr

/-- part_011 `handleCanvasClick` attack path: the attack executes only when
`now - lastAttackTimeRef.current >= ATTACK_COOLDOWN`; otherwise the click is
rejected ("Attack on cooldown!") and nothing is mutated.  The boolean
reports whether the attack was accepted. -/
def handleCanvasClickAttack (now : ℤ) (r : ℚ) (playerCountry : Country)
    (st : WorldAttackState) : WorldAttackState × Bool :=
  if ATTACK_COOLDOWN ≤ now - st.lastAttackTime then
    let e := handleAttack now r playerCountry st.target
    ({ lastAttackTime := e.attackerLastAttackTime
       playerPoints := st.playerPoints + e.attackerPointsGain
       target := e.target }, true)
  else
    (st, false)

/-- part_011 `takeDamage`: the local player's health update
`Math.max(0, prev - finalDamage)` with own-class defense applied first. -/
def takeDamage (prev : ℤ) (damage : ℤ) (ownCountry : Country) (isDefending : Bool) : ℤ :=
  max 0 (prev - finalDamage damage ownCountry isDefending)

/-- Local player state touched by the part_011 respawn timeout. -/
structure LocalPlayer where
  health : ℤ
  points : ℤ
  isDead : Bool
  x : ℚ
  y : ℚ
deriving DecidableEq, Repr

/-- part_011 `handlePlayerDeath` respawn timeout body: new random position
inside the canvas, health back to `MAX_HEALTH = 100`, one point deducted
with a clamp at 0. -/
def localRespawn (r1 r2 : ℚ) (lp : LocalPlayer) : LocalPlayer :=
  { health := 100
    points := max 0 (lp.points - 1)
    isDead := false
    x := r1 * (800 - 32 * 2) + 32
    y := r2 * (600 - 32 * 2) + 32 }

/-- part_012 `handlePlayerDeath(playerId)`: marks the matched player dead,
zeroes health, deducts one point with a clamp at 0, and schedules the
respawn 5000 ms out. -/
def handlePlayerDeath012 (now : ℤ) (p : OnlinePlayer) : OnlinePlayer :=
  { p with
    isDead := true
    health := 0
    points := max 0 (p.points - 1)
    respawnTime := some (now + 5000) }

/-- part_012 respawn interval body for one player: a dead player whose
(truthy) `respawnTime` has elapsed comes back alive at full health `100` at
a fresh random position inside the map, with `respawnTime` cleared.
`mapW`/`mapH` are the `mapSize` (800 × 600 in part_012). -/
def respawnPass (now : ℤ) (mapW mapH : ℚ) (r1 r2 : ℚ) (p : OnlinePlayer) : OnlinePlayer :=
  match p.respawnTime with
  | some t =>
      if p.isDead ∧ t ≠ 0 ∧ t ≤ now then
        { p with
          isDead := false
          health := 100
          x := r1 * (mapW - 64) + 32
          y := r2 * (mapH - 64) + 32
          respawnTime := none }
      else p
  | none => p

/-- Duel arena component state touched by part_010's player attack
(`playerHealth`/`opponentHealth`, cooldown flags, `isDefending`,
`gameOver`). -/
structure DuelState where
  playerHealth : ℤ
  opponentHealth : ℤ
  isAttackCooldown : Bool
  isDefenseCooldown : Bool
  isDefending : Bool
  gameOver : Bool
deriving DecidableEq, Repr

/-- part_010 `handleAttack` (the player's duel attack): bails out when
`isAttackCooldown || gameOver`, otherwise rolls `calculateDamage` and
clamps the opponent's health at 0, then starts the cooldown. -/
def duelHandleAttack (st : DuelState) (playerCountry : Country) (r : ℚ) : DuelState :=
  if st.isAttackCooldown || st.gameOver then st
  else
    { st with
      opponentHealth := max 0 (st.opponentHealth - calculateDamage playerCountry r)
      isAttackCooldown := true }

/-- Winner of a duel as decided by part_010 `handleGameOver`. -/
inductive DuelWinner where
  | player | opponent
deriving DecidableEq, Repr

/-- part_010 `handleGameOver` winner determination: a dead side loses
immediately; on timeout the higher health wins, and an exact tie is
overridden in the player's favour. -/
def handleGameOverWinner (playerHealth opponentHealth : ℤ) : DuelWinner :=
  if playerHealth ≤ 0 then .opponent
  else if opponentHealth ≤ 0 then .player
  else
    let gameWinner := if playerHealth > opponentHealth then DuelWinner.player else .opponent
    if playerHealth = opponentHealth then .player else gameWinner

/-- NPC behavior types, in `Object.values(AIBehaviorType)` declaration
order (`npc-ai-engine.ts`). -/
inductive AIBehaviorType where
  | passive | aggressive | defensive | cowardly | random
deriving DecidableEq, Repr

/-- 2D point stored as a `THREE.Vector3 (x, 0, z)` by the AI engine. -/
structure Vec3 where
  x : ℚ
  z : ℚ
deriving DecidableEq, Repr

/-- `AIState` of `npc-ai-engine.ts`. -/
structure AIState where
  behaviorType : AIBehaviorType
  targetId : Option ℕ
  lastDecisionTime : ℤ
  wanderTarget : Option Vec3
  fleeTarget : Option Vec3
  isResting : Bool
  restUntil : ℤ
  lastAttackTime : ℤ
  lastDefendTime : ℤ
deriving DecidableEq, Repr

/-- `AIConfig` of `npc-ai-engine.ts`; ranges are stored squared because the
source compares Euclidean distances against them. -/
structure AIConfig where
  decisionInterval : ℤ
  aggroRangeSq : ℚ
  attackRangeSq : ℚ
  fleeThreshold : ℚ
  wanderRadius : ℚ
  attackCooldown : ℤ
  defendCooldown : ℤ
deriving DecidableEq, Repr

/-- `DEFAULT_AI_CONFIG` (aggroRange 5, attackRange 2, squared here). -/
def DEFAULT_AI_CONFIG : AIConfig :=
  { decisionInterval := 1000
    aggroRangeSq := 25
    attackRangeSq := 4
    fleeThreshold := 0.3
    wanderRadius := 10
    attackCooldown := 2000
    defendCooldown := 3000 }

/-- Squared Euclidean distance; the source's `calculateDistance` is its
square root, and all source comparisons of it are against nonnegative
bounds, so comparing squares is equivalent. -/
def dist2 (p q : OnlinePlayer) : ℚ :=
  (p.x - q.x) ^ 2 + (p.y - q.y) ^ 2

/-- `findNearestPlayer`: scans the list, skipping self, dead players and
other NPCs, keeping the strictly closest player seen so far; the running
bound starts at `maxDistance` (`none` models `Infinity`, used by aggressive
NPCs). -/
def findNearestPlayer (npc : OnlinePlayer) (players : List OnlinePlayer)
    (maxDist2 : Option ℚ) : Option OnlinePlayer :=
  (players.foldl
    (fun (acc : Option OnlinePlayer × Option ℚ) p =>
      if p.id = npc.id ∨ p.isDead = true ∨ p.isNPC = true then acc
      else
        match acc.2 with
        | none => (some p, some (dist2 npc p))
        | some b => if dist2 npc p < b then (some p, some (dist2 npc p)) else acc)
    (none, maxDist2)).1

/-- The random draws and generator outputs consumed by one `updateAIState`
decision.  `genWander`/`genFlee` are the values `generateWanderTarget` /
`generateFleeTarget` would return (their coordinates involve
`cos`/`sin`/`sqrt` and are irrelevant to every property below). -/
structure DecisionRand where
  rBehaviorChange : ℚ
  rBehaviorPick : ℚ
  rTargetChance : ℚ
  rWanderChance : ℚ
  rPassiveRewander : ℚ
  genWander : Vec3
  genFlee : Vec3
deriving DecidableEq, Repr

/-- `behaviors[Math.floor(Math.random() * behaviors.length)]` with the
five behaviors in declaration order. -/
def pickBehavior (r : ℚ) : AIBehaviorType :=
  match ⌊r * 5⌋ with
  | 0 => .passive
  | 1 => .aggressive
  | 2 => .defensive
  | 3 => .cowardly
  | _ => .random

/-- `updateAIState` (`npc-ai-engine.ts`): gated by resting and the decision
interval, applies the low-health cowardly override (reverting to passive on
recovery), queries the nearest player — with unbounded range exactly when
the *pre-override* behavior is aggressive — and then updates target /
wander / flee fields per behavior case. -/
def updateAIState (now : ℤ) (npc : OnlinePlayer) (ai : AIState)
    (players : List OnlinePlayer) (rand : DecisionRand)
    (cfg : AIConfig := DEFAULT_AI_CONFIG) : AIState :=
  if ai.isResting = true ∧ now < ai.restUntil then ai
  else if ¬ (cfg.decisionInterval ≤ now - ai.lastDecisionTime) then ai
  else
    let st0 := { ai with lastDecisionTime := now, isResting := false }
    let healthPercentage : ℚ := (npc.health : ℚ) / (npc.maxHealth : ℚ)
    let st1 :=
      if healthPercentage ≤ cfg.fleeThreshold ∧ ai.behaviorType ≠ .cowardly then
        { st0 with behaviorType := .cowardly }
      else if cfg.fleeThreshold < healthPercentage ∧ ai.behaviorType = .cowardly then
        { st0 with behaviorType := .passive }
      else st0
    let nearest := findNearestPlayer npc players
      (if ai.behaviorType = .aggressive then none else some cfg.aggroRangeSq)
    match st1.behaviorType with
    | .aggressive =>
        match nearest with
        | some p => { st1 with targetId := some p.id, wanderTarget := none, fleeTarget := none }
        | none =>
            if st1.wanderTarget = none then { st1 with wanderTarget := some rand.genWander }
            else st1
    | .defensive =>
        match nearest with
        | some p =>
            if dist2 npc p ≤ cfg.aggroRangeSq then
              { st1 with targetId := some p.id, wanderTarget := none, fleeTarget := none }
            else { st1 with targetId := none }
        | none => { st1 with targetId := none }
    | .cowardly =>
        match nearest with
        | some _ =>
            { st1 with targetId := none, wanderTarget := none, fleeTarget := some rand.genFlee }
        | none =>
            if st1.wanderTarget = none then { st1 with wanderTarget := some rand.genWander }
            else st1
    | .random =>
        let st2 :=
          if rand.rBehaviorChange < 0.2 then
            { st1 with behaviorType := pickBehavior rand.rBehaviorPick }
          else st1
        if nearest.isSome = true ∧ rand.rTargetChance < 0.7 then
          match nearest with
          | some p => { st2 with targetId := some p.id, wanderTarget := none, fleeTarget := none }
          | none => st2
        else if rand.rWanderChance < 0.3 then
          { st2 with targetId := none, wanderTarget := some rand.genWander, fleeTarget := none }
        else st2
    | .passive =>
        match nearest with
        | some p =>
            if npc.health < npc.maxHealth then
              { st1 with targetId := some p.id, wanderTarget := none, fleeTarget := none }
            else if st1.wanderTarget = none ∨ rand.rPassiveRewander < 0.1 then
              { st1 with wanderTarget := some rand.genWander }
            else st1
        | none =>
            if st1.wanderTarget = none ∨ rand.rPassiveRewander < 0.1 then
              { st1 with wanderTarget := some rand.genWander }
            else st1

/-- Output record of `determineNextAction`.  `moveDirection` holds the
direction vector *before* the source's `.normalize()` (a positive rescale
that cannot be expressed in `ℚ` and whose magnitude no property uses). -/
structure NextAction where
  moveDirection : Option Vec3
  shouldAttack : Bool
  shouldDefend : Bool
  targetId : Option ℕ
deriving DecidableEq, Repr

/-- `players.find(p => p.id === aiState.targetId)` in
`determineNextAction` and `processNPCAttack`. -/
def lookupTarget (targetId : Option ℕ) (players : List OnlinePlayer) : Option OnlinePlayer :=
  match targetId with
  | some tid => players.find? (fun p => decide (p.id = tid))
  | none => none

/-- `determineNextAction` (`npc-ai-engine.ts`): fleeing moves toward the
flee target; a live resolved target in attack range stops movement and gates
attack/defend intent on the AI-side cooldowns (defend also on a 30% draw);
an out-of-range live target is chased; otherwise the NPC heads for its
wander target, with movement stopped (only) once within 0.5 units of it. -/
def determineNextAction (now : ℤ) (rDefend : ℚ) (npc : OnlinePlayer) (ai : AIState)
    (players : List OnlinePlayer) (cfg : AIConfig := DEFAULT_AI_CONFIG) : NextAction :=
  let targetPlayer := lookupTarget ai.targetId players
  let wanderMove : Option Vec3 :=
    match ai.wanderTarget with
    | some wt =>
        if (wt.x - npc.x) ^ 2 + (wt.z - npc.y) ^ 2 < (0.5 : ℚ) ^ 2 then none
        else some ⟨wt.x - npc.x, wt.z - npc.y⟩
    | none => none
  match ai.fleeTarget with
  | some ft =>
      { moveDirection := some ⟨ft.x - npc.x, ft.z - npc.y⟩
        shouldAttack := false
        shouldDefend := false
        targetId := targetPlayer.map (·.id) }
  | none =>
      match targetPlayer with
      | some t =>
          if t.isDead = false then
            if dist2 npc t ≤ cfg.attackRangeSq then
              { moveDirection := none
                shouldAttack := decide (cfg.attackCooldown ≤ now - ai.lastAttackTime)
                shouldDefend :=
                  decide (cfg.defendCooldown ≤ now - ai.lastDefendTime ∧ rDefend < 0.3)
                targetId := some t.id }
            else
              { moveDirection := some ⟨t.x - npc.x, t.y - npc.y⟩
                shouldAttack := false
                shouldDefend := false
                targetId := some t.id }
          else
            { moveDirection := wanderMove
              shouldAttack := false
              shouldDefend := false
              targetId := some t.id }
      | none =>
          { moveDirection := wanderMove
            shouldAttack := false
            shouldDefend := false
            targetId := none }

/-- `processNPCAttack` damage roll: the hardcoded
`Math.floor(Math.random() * (15 - 5 + 1)) + 5` — note the attacker's class
is not an input. -/
def npcDamageRoll (r : ℚ) : ℤ :=
  ⌊r * (15 - 5 + 1 : ℚ)⌋ + 5

/-- `processNPCAttack` defense application: a flat halving
`Math.floor(damage / 2)` when the target defends — the target's class is
not consulted either. -/
def npcActualDamage (r : ℚ) (isDefending : Bool) : ℤ :=
  if isDefending then ⌊(npcDamageRoll r : ℚ) / 2⌋ else npcDamageRoll r

/-- Result triple of `processNPCAttack`. -/
structure NPCAttackResult where
  updatedNPC : OnlinePlayer
  updatedTarget : Option OnlinePlayer
  updatedAIState : AIState
deriving DecidableEq, Repr

/-- `processNPCAttack` (`npc-ai-engine.ts`): no-op without a live resolved
target; otherwise rolls a flat 5–15 damage (the attacker's class is never
consulted), halves it (floored) when the target defends, clamps the
target's health at 0, and stamps the attack time on NPC and AI state. -/
def processNPCAttack (now : ℤ) (r : ℚ) (npc : OnlinePlayer) (targetId : Option ℕ)
    (players : List OnlinePlayer) (ai : AIState) : NPCAttackResult :=
  match targetId with
  | none => { updatedNPC := npc, updatedTarget := none, updatedAIState := ai }
  | some tid =>
      match players.find? (fun p => decide (p.id = tid)) with
      | none => { updatedNPC := npc, updatedTarget := none, updatedAIState := ai }
      | some targetPlayer =>
          if targetPlayer.isDead = true then
            { updatedNPC := npc, updatedTarget := none, updatedAIState := ai }
          else
            let actualDamage := npcActualDamage r targetPlayer.isDefending
            { updatedNPC := { npc with isAttacking := true, lastAttackTime := now }
              updatedTarget := some { targetPlayer with
                health := max 0 (targetPlayer.health - actualDamage)
                isDead := decide (targetPlayer.health - actualDamage ≤ 0) }
              updatedAIState := { ai with lastAttackTime := now } }

/-- The health trace of one combatant under a sequence of part_011 attacks:
the state of the target after each `handleAttack` resolution. -/
def attackTrace (t : OnlinePlayer) : List (ℤ × ℚ × Country) → List OnlinePlayer
  | [] => []
  | a :: rest =>
      let t2 := (handleAttack a.1 a.2.1 a.2.2 t).target
      t2 :: attackTrace t2 rest

section HelperLemmas

/-- `handleAttack` always writes the clamped health. -/
theorem handleAttack_target_health (now : ℤ) (r : ℚ) (c : Country) (t : OnlinePlayer) :
    (handleAttack now r c t).target.health =
      max 0 (t.health - finalDamage (baseDamageRoll c r) t.country t.isDefending) := by
  simp only [handleAttack]
  split <;> rfl

/-- `calculateDamage` rewritten with the floor pulled off the added
minimum. -/
theorem calculateDamage_eq (c : Country) (r : ℚ) :
    calculateDamage c r =
      (WEAPON_DAMAGE c).1 + ⌊r * (((WEAPON_DAMAGE c).2 - (WEAPON_DAMAGE c).1 : ℤ) : ℚ)⌋ := by
  unfold calculateDamage
  rw [show ((WEAPON_DAMAGE c).2 : ℚ) - ((WEAPON_DAMAGE c).1 : ℚ)
        = (((WEAPON_DAMAGE c).2 - (WEAPON_DAMAGE c).1 : ℤ) : ℚ) by push_cast; ring]
  exact Int.floor_int_add _ _

/-- `baseDamageRoll` rewritten with an integer-cast multiplier. -/
theorem baseDamageRoll_eq (c : Country) (r : ℚ) :
    baseDamageRoll c r =
      ⌊r * (((WEAPON_DAMAGE c).2 - (WEAPON_DAMAGE c).1 + 1 : ℤ) : ℚ)⌋ + (WEAPON_DAMAGE c).1 := by
  unfold baseDamageRoll
  rw [show ((WEAPON_DAMAGE c).2 : ℚ) - ((WEAPON_DAMAGE c).1 : ℚ) + 1
        = (((WEAPON_DAMAGE c).2 - (WEAPON_DAMAGE c).1 + 1 : ℤ) : ℚ) by push_cast; ring]

/-- Every class has a nonempty strict damage range. -/
theorem weaponDamage_min_lt_max (c : Country) : (WEAPON_DAMAGE c).1 < (WEAPON_DAMAGE c).2 := by
  cases c <;> norm_num [WEAPON_DAMAGE]

end HelperLemmas

/-- C1: with the fixed mitigation table (usa 0.2, japan 0.15, uk 0.3,
russia 0.1, brazil 0.25), a defending target takes
`⌊raw * (1 - mitigation)⌋` damage, a non-defending target takes `raw`
unchanged, the duel arena's defense application agrees with the open
world's, raw damage 15 against a defending uk defender yields 10, and the
defended result never exceeds the undefended one. -/
theorem applyDefense_spec (c oc pc : Country) (d : Bool) (r : ℚ) (raw : ℕ) :
    (DEFENSE_VALUES .usa = 0.2 ∧ DEFENSE_VALUES .japan = 0.15 ∧ DEFENSE_VALUES .uk = 0.3 ∧
      DEFENSE_VALUES .russia = 0.1 ∧ DEFENSE_VALUES .brazil = 0.25)
    ∧ finalDamage raw c true = ⌊(raw : ℚ) * (1 - DEFENSE_VALUES c)⌋
    ∧ finalDamage raw c false = raw
    ∧ scheduleOpponentAttackDamage oc pc d r = finalDamage (calculateDamage oc r) pc d
    ∧ finalDamage 15 .uk true = 10
    ∧ finalDamage raw c true ≤ finalDamage raw c false := by
  refine ⟨⟨rfl, rfl, rfl, rfl, rfl⟩, ?_, ?_, ?_, ?_, ?_⟩
  · simp [finalDamage, defenseMultiplier]
  · simp [finalDamage, defenseMultiplier]
  · cases d <;>
      simp [scheduleOpponentAttackDamage, finalDamage, defenseMultiplier]
  · norm_num [finalDamage, defenseMultiplier, DEFENSE_VALUES]
  · have h0 : (0 : ℚ) ≤ ((raw : ℤ) : ℚ) := by positivity
    have h1 : defenseMultiplier c true ≤ 1 := by
      cases c <;> norm_num [defenseMultiplier, DEFENSE_VALUES]
    have hle : ((raw : ℤ) : ℚ) * defenseMultiplier c true ≤ ((raw : ℤ) : ℚ) := by
      nlinarith
    calc finalDamage raw c true ≤ ⌊((raw : ℤ) : ℚ)⌋ := Int.floor_le_floor hle
      _ = finalDamage raw c false := by simp [finalDamage, defenseMultiplier]

/-- C2 counterexample: the duel arena's `calculateDamage` can never return
the table maximum — for the usa class (range 8–12) no random draw
`r ∈ [0, 1)` produces 12, so not every integer of `[min, max]` is a
possible result of that implementation. -/
theorem calculateDamage_never_max :
    ¬ ∃ r : ℚ, 0 ≤ r ∧ r < 1 ∧ calculateDamage .usa r = 12 := by
  rintro ⟨r, h0, h1, he⟩
  rw [calculateDamage_eq] at he
  have hb := floor_mul_int_bounds ((WEAPON_DAMAGE .usa).2 - (WEAPON_DAMAGE .usa).1)
    (by norm_num [WEAPON_DAMAGE]) r h0 h1
  simp only [WEAPON_DAMAGE] at he hb
  omega

/-- C2 (amended): for every class and draw `r ∈ [0, 1)`, the open-world
`handleAttack` roll lies in `[min, max]` and attains every integer of
`[min, max]`, while the duel arena's `calculateDamage` lies in
`[min, max - 1]` and attains every integer of `[min, max - 1]` (the
maximum itself is unattainable there). -/
theorem damageRolls_range (c : Country) (r : ℚ) (h0 : 0 ≤ r) (h1 : r < 1) :
    ((WEAPON_DAMAGE c).1 ≤ baseDamageRoll c r ∧ baseDamageRoll c r ≤ (WEAPON_DAMAGE c).2)
    ∧ ((WEAPON_DAMAGE c).1 ≤ calculateDamage c r ∧
        calculateDamage c r ≤ (WEAPON_DAMAGE c).2 - 1)
    ∧ (∀ k : ℤ, (WEAPON_DAMAGE c).1 ≤ k → k ≤ (WEAPON_DAMAGE c).2 →
        ∃ s : ℚ, 0 ≤ s ∧ s < 1 ∧ baseDamageRoll c s = k)
    ∧ (∀ k : ℤ, (WEAPON_DAMAGE c).1 ≤ k → k ≤ (WEAPON_DAMAGE c).2 - 1 →
        ∃ s : ℚ, 0 ≤ s ∧ s < 1 ∧ calculateDamage c s = k) := by
  have hlt := weaponDamage_min_lt_max c
  refine ⟨?_, ?_, ?_, ?_⟩
  · have hb := floor_mul_int_bounds ((WEAPON_DAMAGE c).2 - (WEAPON_DAMAGE c).1 + 1)
      (by omega) r h0 h1
    rw [baseDamageRoll_eq]
    omega
  · have hb := floor_mul_int_bounds ((WEAPON_DAMAGE c).2 - (WEAPON_DAMAGE c).1)
      (by omega) r h0 h1
    rw [calculateDamage_eq]
    omega
  · intro k hk1 hk2
    obtain ⟨s, hs0, hs1, hs⟩ := floor_mul_int_attains
      ((WEAPON_DAMAGE c).2 - (WEAPON_DAMAGE c).1 + 1) (k - (WEAPON_DAMAGE c).1)
      (by omega) (by omega) (by omega)
    exact ⟨s, hs0, hs1, by rw [baseDamageRoll_eq, hs]; omega⟩
  · intro k hk1 hk2
    obtain ⟨s, hs0, hs1, hs⟩ := floor_mul_int_attains
      ((WEAPON_DAMAGE c).2 - (WEAPON_DAMAGE c).1) (k - (WEAPON_DAMAGE c).1)
      (by omega) (by omega) (by omega)
    exact ⟨s, hs0, hs1, by rw [calculateDamage_eq, hs]; omega⟩

/-- Witness for `damageRolls_range` at class usa and draw 0. -/
theorem damageRolls_range_witness :
    ((0 : ℚ) ≤ 0 ∧ (0 : ℚ) < 1)
    ∧ ((8 : ℤ) ≤ baseDamageRoll .usa 0 ∧ baseDamageRoll .usa 0 ≤ 12)
    ∧ ((8 : ℤ) ≤ calculateDamage .usa 0 ∧ calculateDamage .usa 0 ≤ 11) := by
  have h := damageRolls_range .usa 0 (by norm_num) (by norm_num)
  refine ⟨⟨le_refl 0, by norm_num⟩, h.1, ?_⟩
  have h2 := h.2.1
  simpa [WEAPON_DAMAGE] using h2


/-- `processNPCAttack` on a live resolved target, in closed form. -/
theorem processNPCAttack_live (now : ℤ) (r : ℚ) (npc : OnlinePlayer) (tid : ℕ)
    (players : List OnlinePlayer) (ai : AIState) (t : OnlinePlayer)
    (hf : players.find? (fun p => decide (p.id = tid)) = some t)
    (hd : t.isDead = false) :
    processNPCAttack now r npc (some tid) players ai =
      { updatedNPC := { npc with isAttacking := true, lastAttackTime := now }
        updatedTarget := some { t with
          health := max 0 (t.health - npcActualDamage r t.isDefending)
          isDead := decide (t.health - npcActualDamage r t.isDefending ≤ 0) }
        updatedAIState := { ai with lastAttackTime := now } } := by
  simp only [processNPCAttack, hf, hd, Bool.false_eq_true, if_false]

theorem attackTrace_nonneg (l : List (ℤ × ℚ × Country)) :
    ∀ t : OnlinePlayer, ∀ t2 ∈ attackTrace t l, 0 ≤ t2.health := by
  induction l with
  | nil => intro t t2 h; simp [attackTrace] at h
  | cons a rest ih =>
      intro t t2 h
      simp only [attackTrace, List.mem_cons] at h
      rcases h with rfl | h
      · rw [handleAttack_target_health]
        exact le_max_left 0 _
      · exact ih _ _ h

/-- C3: every health mutation in the combat core clamps at 0 with defense
mitigation applied first — the part_011 player attack writes
`max(0, prev - finalDamage)`, the NPC attack and the local `takeDamage` and
the duel opponent attack do the same with their respective mitigations, and
along any sequence of attacks the target's health stays nonnegative after
every resolution. -/
theorem health_never_negative (now now2 : ℤ) (r r2 rd : ℚ) (c oc pc : Country)
    (d : Bool) (prev dmg : ℤ) (t npc : OnlinePlayer) (tid : ℕ) (tidOpt : Option ℕ)
    (players : List OnlinePlayer) (ai : AIState) (l : List (ℤ × ℚ × Country)) :
    ((handleAttack now r c t).target.health =
        max 0 (t.health - finalDamage (baseDamageRoll c r) t.country t.isDefending)
      ∧ 0 ≤ (handleAttack now r c t).target.health)
    ∧ (players.find? (fun p => decide (p.id = tid)) = some t → t.isDead = false →
        (processNPCAttack now2 r2 npc (some tid) players ai).updatedTarget =
          some { t with
            health := max 0 (t.health - npcActualDamage r2 t.isDefending)
            isDead := decide (t.health - npcActualDamage r2 t.isDefending ≤ 0) })
    ∧ (∀ u, (processNPCAttack now2 r2 npc tidOpt players ai).updatedTarget = some u →
        0 ≤ u.health)
    ∧ 0 ≤ takeDamage prev dmg pc d
    ∧ 0 ≤ scheduleOpponentAttackHealth prev oc pc d rd
    ∧ (∀ t2 ∈ attackTrace t l, 0 ≤ t2.health) := by
  refine ⟨⟨handleAttack_target_health now r c t, ?_⟩, ?_, ?_, le_max_left 0 _,
    le_max_left 0 _, attackTrace_nonneg l t⟩
  · rw [handleAttack_target_health]
    exact le_max_left 0 _
  · intro hf hd
    rw [processNPCAttack_live now2 r2 npc tid players ai t hf hd]
  · intro u hu
    match tidOpt with
    | none => simp [processNPCAttack] at hu
    | some tid2 =>
      simp only [processNPCAttack] at hu
      match hfind : players.find? (fun p => decide (p.id = tid2)) with
      | none => rw [hfind] at hu; simp at hu
      | some tp =>
        rw [hfind] at hu
        by_cases hd2 : tp.isDead = true
        · simp [hd2] at hu
        · simp only [Bool.not_eq_true] at hd2
          simp only [hd2, Bool.false_eq_true, if_false, Option.some.injEq] at hu
          rw [← hu]
          exact le_max_left 0 _

/-- A defending uk-class sample target. -/
def ukDefender : OnlinePlayer :=
  { id := 7, country := .uk, x := 0, y := 1, health := 100, maxHealth := 100, points := 1
    lastAttackTime := 0, lastDefendTime := 0, isDefending := true, isAttacking := false
    isDead := false }

/-- A russia-class sample NPC. -/
def npcBrawler : OnlinePlayer :=
  { id := 2, country := .russia, x := 0, y := 0, health := 100, maxHealth := 100, points := 1
    lastAttackTime := 0, lastDefendTime := 0, isDefending := false, isAttacking := false
    isDead := false, isNPC := true }

/-- A sample AI state targeting id 7. -/
def aiZero : AIState :=
  { behaviorType := .passive, targetId := some 7, lastDecisionTime := 0, wanderTarget := none
    fleeTarget := none, isResting := false, restUntil := 0, lastAttackTime := 0
    lastDefendTime := 0 }

/-- Witness for `health_never_negative`: a concrete defending uk target hit
by a russia attacker and by an NPC, with draw 0. -/
theorem health_never_negative_witness :
    (List.find? (fun p => decide (p.id = 7)) [ukDefender] = some ukDefender
      ∧ ukDefender.isDead = false)
    ∧ (processNPCAttack 0 0 npcBrawler (some 7) [ukDefender] aiZero).updatedTarget =
        some { ukDefender with health := 98 }
    ∧ 0 ≤ (handleAttack 0 0 .russia ukDefender).target.health := by
  have hf : List.find? (fun p => decide (p.id = 7)) [ukDefender] = some ukDefender := by
    simp [ukDefender]
  have hd : ukDefender.isDead = false := rfl
  have h := health_never_negative 0 0 0 0 0 .russia .uk .uk false 0 0 ukDefender npcBrawler
    7 (some 7) [ukDefender] aiZero [(0, 0, .russia)]
  refine ⟨⟨hf, hd⟩, ?_, ?_⟩
  · rw [h.2.1 hf hd]
    norm_num [ukDefender, npcActualDamage, npcDamageRoll]
  · exact h.2.2.2.2.2 _ (by simp [attackTrace])

/-- C4: when the duel timer runs out with both sides alive, the strictly
higher health wins and an exact health tie resolves to the player. -/
theorem duel_tie_break (ph oh : ℤ) (hp : 0 < ph) (ho : 0 < oh) :
    (ph = oh → handleGameOverWinner ph oh = .player)
    ∧ (oh < ph → handleGameOverWinner ph oh = .player)
    ∧ (ph < oh → handleGameOverWinner ph oh = .opponent) := by
  refine ⟨fun h => ?_, fun h => ?_, fun h => ?_⟩ <;>
    simp only [handleGameOverWinner] <;> split_ifs <;> first | rfl | omega

/-- Witness for `duel_tie_break`: tie at 5–5, win at 7–5, loss at 5–7. -/
theorem duel_tie_break_witness :
    ((0 : ℤ) < 5 ∧ (0 : ℤ) < 7)
    ∧ handleGameOverWinner 5 5 = .player
    ∧ handleGameOverWinner 7 5 = .player
    ∧ handleGameOverWinner 5 7 = .opponent :=
  ⟨⟨by norm_num, by norm_num⟩,
    (duel_tie_break 5 5 (by norm_num) (by norm_num)).1 rfl,
    (duel_tie_break 7 5 (by norm_num) (by norm_num)).2.1 (by norm_num),
    (duel_tie_break 5 7 (by norm_num) (by norm_num)).2.2 (by norm_num)⟩

/-- C6: an attack request strictly less than `ATTACK_COOLDOWN` after the
attacker's last accepted attack is rejected with no state change — the
part_011 canvas-click path returns the state untouched (target health,
`lastAttackTime` and points included), and the part_010 duel attack is a
no-op while `isAttackCooldown` is set. -/
theorem cooldown_rejection (now : ℤ) (r r2 : ℚ) (c pc : Country)
    (st : WorldAttackState) (ds : DuelState)
    (h : now - st.lastAttackTime < ATTACK_COOLDOWN) (hd : ds.isAttackCooldown = true) :
    (handleCanvasClickAttack now r c st = (st, false)
      ∧ (handleCanvasClickAttack now r c st).1.target.health = st.target.health
      ∧ (handleCanvasClickAttack now r c st).1.lastAttackTime = st.lastAttackTime
      ∧ (handleCanvasClickAttack now r c st).1.playerPoints = st.playerPoints)
    ∧ duelHandleAttack ds pc r2 = ds := by
  have he : handleCanvasClickAttack now r c st = (st, false) := by
    unfold handleCanvasClickAttack
    rw [if_neg (by omega)]
  refine ⟨⟨he, by rw [he], by rw [he], by rw [he]⟩, ?_⟩
  unfold duelHandleAttack
  rw [hd]
  simp

/-- Witness for `cooldown_rejection`: a second click 500 ms after an accepted
attack, and a duel attack during cooldown. -/
theorem cooldown_rejection_witness :
    ((500 : ℤ) - 0 < ATTACK_COOLDOWN)
    ∧ handleCanvasClickAttack 500 0 .usa
        { lastAttackTime := 0, playerPoints := 3, target := ukDefender } =
        ({ lastAttackTime := 0, playerPoints := 3, target := ukDefender }, false)
    ∧ duelHandleAttack
        { playerHealth := 100, opponentHealth := 100, isAttackCooldown := true
          isDefenseCooldown := false, isDefending := false, gameOver := false } .usa 0 =
        { playerHealth := 100, opponentHealth := 100, isAttackCooldown := true
          isDefenseCooldown := false, isDefending := false, gameOver := false } := by
  have h := cooldown_rejection 500 0 0 .usa .usa
    { lastAttackTime := 0, playerPoints := 3, target := ukDefender }
    { playerHealth := 100, opponentHealth := 100, isAttackCooldown := true
      isDefenseCooldown := false, isDefending := false, gameOver := false }
    (by norm_num [ATTACK_COOLDOWN]) rfl
  exact ⟨by norm_num [ATTACK_COOLDOWN], h.1.1, h.2⟩

/-- C7 helper: the generic part_012 respawn fact. -/
theorem respawnPass_respawns (tnow : ℤ) (mapW mapH r1 r2 : ℚ) (q : OnlinePlayer) (t : ℤ)
    (hq : q.isDead = true) (hrt : q.respawnTime = some t) (ht0 : t ≠ 0) (ht : t ≤ tnow) :
    respawnPass tnow mapW mapH r1 r2 q =
      { q with
        isDead := false
        health := 100
        x := r1 * (mapW - 64) + 32
        y := r2 * (mapH - 64) + 32
        respawnTime := none } := by
  simp only [respawnPass, hrt]
  rw [if_pos ⟨hq, ht0, ht⟩]

/-- The effects of a lethal part_011 attack. -/
theorem handleAttack_killed_spec (now : ℤ) (r : ℚ) (c : Country) (t : OnlinePlayer)
    (hk : (handleAttack now r c t).killed = true) :
    (handleAttack now r c t).target.isDead = true
    ∧ (handleAttack now r c t).target.respawnTime = some (now + RESPAWN_TIME)
    ∧ (handleAttack now r c t).target.points = max 0 (t.points - 1)
    ∧ (handleAttack now r c t).attackerPointsGain = 1 := by
  simp only [handleAttack] at hk ⊢
  split at hk <;> simp_all

/-- The effects of a non-lethal part_011 attack. -/
theorem handleAttack_not_killed_spec (now : ℤ) (r : ℚ) (c : Country) (t : OnlinePlayer)
    (hk : (handleAttack now r c t).killed = false) :
    (handleAttack now r c t).target.points = t.points
    ∧ (handleAttack now r c t).attackerPointsGain = 0 := by
  simp only [handleAttack] at hk ⊢
  split at hk <;> split <;> simp_all

/-- C7: killing a combatant (part_012 `handlePlayerDeath`, or the part_011
kill path) marks it dead with a respawn scheduled 5000 ms out; the part_012
respawn pass revives any dead combatant with an elapsed (truthy) respawn
timestamp at full health (100, the `maxHealth` of every combatant this
world creates), clears the timestamp and relocates it inside the 800×600
map; composing the two gives the death/respawn round trip. -/
theorem death_respawn_roundtrip (dnow tnow now2 : ℤ) (r1 r2 r3 : ℚ) (c : Country)
    (p t2 : OnlinePlayer)
    (hr1 : 0 ≤ r1) (hr1b : r1 < 1) (hr2 : 0 ≤ r2) (hr2b : r2 < 1)
    (hdn : 0 ≤ dnow) (ht : dnow + 5000 ≤ tnow) :
    ((handlePlayerDeath012 dnow p).isDead = true
      ∧ (handlePlayerDeath012 dnow p).health = 0
      ∧ (handlePlayerDeath012 dnow p).respawnTime = some (dnow + 5000))
    ∧ ((handleAttack now2 r3 c t2).killed = true →
        (handleAttack now2 r3 c t2).target.isDead = true
          ∧ (handleAttack now2 r3 c t2).target.respawnTime = some (now2 + RESPAWN_TIME))
    ∧ respawnPass tnow 800 600 r1 r2 (handlePlayerDeath012 dnow p) =
        { handlePlayerDeath012 dnow p with
          isDead := false
          health := 100
          x := r1 * (800 - 64) + 32
          y := r2 * (600 - 64) + 32
          respawnTime := none }
    ∧ (respawnPass tnow 800 600 r1 r2 (handlePlayerDeath012 dnow p)).isDead = false
    ∧ (p.maxHealth = 100 →
        (respawnPass tnow 800 600 r1 r2 (handlePlayerDeath012 dnow p)).health = p.maxHealth)
    ∧ (32 ≤ r1 * (800 - 64) + 32 ∧ r1 * (800 - 64) + 32 < 800 - 32
        ∧ 32 ≤ r2 * (600 - 64) + 32 ∧ r2 * (600 - 64) + 32 < 600 - 32) := by
  have hpass := respawnPass_respawns tnow 800 600 r1 r2 (handlePlayerDeath012 dnow p)
    (dnow + 5000) rfl rfl (by omega) ht
  refine ⟨⟨rfl, rfl, rfl⟩, fun hk => ?_, hpass, by rw [hpass], fun hm => by rw [hpass, hm], ?_⟩
  · have h := handleAttack_killed_spec now2 r3 c t2 hk
    exact ⟨h.1, h.2.1⟩
  · refine ⟨by nlinarith, by nlinarith, by nlinarith, by nlinarith⟩

/-- Witness for `death_respawn_roundtrip`: kill at time 0, respawn check at
time 5000, random draws 0. -/
theorem death_respawn_roundtrip_witness :
    ((0 : ℚ) ≤ 0 ∧ (0 : ℚ) < 1 ∧ (0 : ℤ) ≤ 0 ∧ (0 : ℤ) + 5000 ≤ 5000)
    ∧ (handlePlayerDeath012 0 ukDefender).isDead = true
    ∧ (respawnPass 5000 800 600 0 0 (handlePlayerDeath012 0 ukDefender)).isDead = false
    ∧ (respawnPass 5000 800 600 0 0 (handlePlayerDeath012 0 ukDefender)).health =
        ukDefender.maxHealth := by
  have h := death_respawn_roundtrip 0 5000 0 0 0 0 .usa ukDefender ukDefender
    (le_refl 0) (by norm_num) (le_refl 0) (by norm_num) (le_refl 0) (by norm_num)
  exact ⟨⟨le_refl 0, by norm_num, le_refl 0, by norm_num⟩, h.1.1, h.2.2.2.1,
    h.2.2.2.2.1 rfl⟩

/-- C10: on every lethal attack the attacker gains exactly 1 point
unconditionally, all victim-side deductions (at death in part_011 and
part_012, and at the human player's respawn in part_011) are clamped as
`max(0, points - 1)`, so no operation drives a points value negative, and a
kill on a 0-point victim mints a net new point instead of transferring
one. -/
theorem kill_reward_asymmetry (now now2 : ℤ) (r r1 r2 : ℚ) (c : Country)
    (t p : OnlinePlayer) (lp : LocalPlayer) (ap : ℤ)
    (hk : (handleAttack now r c t).killed = true) (hap : 0 ≤ ap) :
    (handleAttack now r c t).attackerPointsGain = 1
    ∧ (handleAttack now r c t).target.points = max 0 (t.points - 1)
    ∧ (handlePlayerDeath012 now2 p).points = max 0 (p.points - 1)
    ∧ (localRespawn r1 r2 lp).points = max 0 (lp.points - 1)
    ∧ 0 ≤ (handleAttack now r c t).target.points
    ∧ 0 ≤ (handlePlayerDeath012 now2 p).points
    ∧ 0 ≤ (localRespawn r1 r2 lp).points
    ∧ 0 ≤ ap + (handleAttack now r c t).attackerPointsGain
    ∧ (t.points = 0 →
        (handleAttack now r c t).target.points = 0
        ∧ (handleAttack now r c t).target.points + (handleAttack now r c t).attackerPointsGain
            = t.points + 1) := by
  have h := handleAttack_killed_spec now r c t hk
  refine ⟨h.2.2.2, h.2.2.1, rfl, rfl, ?_, le_max_left 0 _, le_max_left 0 _, ?_, fun h0 => ?_⟩
  · rw [h.2.2.1]; exact le_max_left 0 _
  · rw [h.2.2.2]; omega
  · rw [h.2.2.1, h.2.2.2, h0]
    omega

/-- Witness for `kill_reward_asymmetry`: a russia attacker finishing off a
0-point, 1-health uk defender. -/
theorem kill_reward_asymmetry_witness :
    ((handleAttack 0 0 .russia
        { ukDefender with health := 1, points := 0 }).killed = true
      ∧ (0 : ℤ) ≤ 3 ∧ (0 : ℤ) ≤ 0)
    ∧ (handleAttack 0 0 .russia
        { ukDefender with health := 1, points := 0 }).attackerPointsGain = 1
    ∧ (handleAttack 0 0 .russia
        { ukDefender with health := 1, points := 0 }).target.points = 0 := by
  have hk : (handleAttack 0 0 .russia
      { ukDefender with health := 1, points := 0 }).killed = true := by
    norm_num [handleAttack, ukDefender, finalDamage, defenseMultiplier, DEFENSE_VALUES,
      baseDamageRoll, WEAPON_DAMAGE]
  have h := kill_reward_asymmetry 0 0 0 0 0 .russia
    { ukDefender with health := 1, points := 0 } ukDefender
    { health := 100, points := 1, isDead := false, x := 0, y := 0 } 3 hk (by norm_num)
  exact ⟨⟨hk, by norm_num, le_refl 0⟩, h.1, (h.2.2.2.2.2.2.2.2 rfl).1⟩

/-- A dead sample combatant with id 7, one unit away from the origin. -/
def deadTarget : OnlinePlayer :=
  { id := 7, country := .usa, x := 1, y := 0, health := 0, maxHealth := 100, points := 0
    lastAttackTime := 0, lastDefendTime := 0, isDefending := false, isAttacking := false
    isDead := true }

/-- A stale AI state: passive, still pointing at combatant 7, with a wander
target on file. -/
def aiStale : AIState :=
  { behaviorType := .passive, targetId := some 7, lastDecisionTime := 0
    wanderTarget := some ⟨3, 3⟩, fleeTarget := none, isResting := false, restUntil := 0
    lastAttackTime := 0, lastDefendTime := 0 }

/-- Decision randomness that triggers none of the random branches. -/
def randKeep : DecisionRand :=
  { rBehaviorChange := 1/2, rBehaviorPick := 1/2, rTargetChance := 1/2
    rWanderChance := 1/2, rPassiveRewander := 1/2, genWander := ⟨9, 9⟩, genFlee := ⟨8, 8⟩ }

/-- C5 counterexample: a passive NPC at full health whose `targetId` refers
to a dead combatant keeps that stale id through the next decision cycle —
`updateAIState` does not set it to none. -/
theorem stale_dead_target_not_cleared :
    deadTarget.isDead = true
    ∧ (updateAIState 1000 npcBrawler aiStale [deadTarget] randKeep).targetId = some 7
    ∧ (updateAIState 1000 npcBrawler aiStale [deadTarget] randKeep).targetId ≠ none := by
  have h : (updateAIState 1000 npcBrawler aiStale [deadTarget] randKeep).targetId = some 7 := by
    norm_num [updateAIState, aiStale, npcBrawler, deadTarget, randKeep, findNearestPlayer,
      DEFAULT_AI_CONFIG, List.foldl]
    split <;> rfl
  exact ⟨rfl, h, by rw [h]; exact Option.some_ne_none 7⟩

/-- C5 (amended): `determineNextAction` issues attack intent only when the
resolved target exists and is alive, and `processNPCAttack` leaves the NPC,
the target and the AI state untouched when the resolved target is dead —
but a stale dead `targetId` is not in general cleared by the next decision
cycle (see the counterexample). -/
theorem no_attack_on_dead_target (now now2 : ℤ) (rDefend r : ℚ)
    (npc npc2 t : OnlinePlayer) (ai ai2 : AIState)
    (players players2 : List OnlinePlayer) (cfg : AIConfig) (tid : ℕ) :
    ((determineNextAction now rDefend npc ai players cfg).shouldAttack = true →
      ∃ u, lookupTarget ai.targetId players = some u ∧ u.isDead = false)
    ∧ (players2.find? (fun p => decide (p.id = tid)) = some t → t.isDead = true →
        processNPCAttack now2 r npc2 (some tid) players2 ai2 =
          { updatedNPC := npc2, updatedTarget := none, updatedAIState := ai2 }) := by
  constructor
  · intro hsa
    rcases hft : ai.fleeTarget with _ | ft
    · rcases htp : lookupTarget ai.targetId players with _ | u
      · exfalso
        simp [determineNextAction, hft, htp] at hsa
      · by_cases hd : u.isDead = false
        · exact ⟨u, rfl, hd⟩
        · exfalso
          have hd2 : u.isDead = true := by simpa using hd
          simp [determineNextAction, hft, htp, hd2] at hsa
    · exfalso
      simp [determineNextAction, hft] at hsa
  · intro hf hd
    simp [processNPCAttack, hf, hd]

/-- Witness for `no_attack_on_dead_target`: an NPC in range of a live
target with its attack cooldown elapsed does raise attack intent, and the
implication then produces that live target. -/
theorem no_attack_on_dead_target_witness :
    (determineNextAction 5000 (1/2) npcBrawler aiZero [ukDefender]
        DEFAULT_AI_CONFIG).shouldAttack = true
    ∧ ∃ u, lookupTarget aiZero.targetId [ukDefender] = some u ∧ u.isDead = false := by
  have hsa : (determineNextAction 5000 (1/2) npcBrawler aiZero [ukDefender]
      DEFAULT_AI_CONFIG).shouldAttack = true := by
    norm_num [determineNextAction, lookupTarget, aiZero, npcBrawler, ukDefender, dist2,
      DEFAULT_AI_CONFIG]
  exact ⟨hsa, (no_attack_on_dead_target 5000 0 (1/2) 0 npcBrawler npcBrawler ukDefender
    aiZero aiZero [ukDefender] [] DEFAULT_AI_CONFIG 0).1 hsa⟩

/-- C8: at the failing input (attacker class russia, defending uk target at
100 health, random draw 0) the player attack path deals 8 damage
(health 92) while the NPC attack path deals 2 (health 98): the NPC
resolution ignores the per-class damage table and the per-class mitigation,
so the two attack-resolution functions are not equivalent. -/
theorem npc_player_attack_divergence :
    (handleAttack 0 0 .russia ukDefender).target.health = 92
    ∧ ((processNPCAttack 0 0 npcBrawler (some 7) [ukDefender] aiZero).updatedTarget.map
        OnlinePlayer.health) = some 98
    ∧ ¬ ((handleAttack 0 0 .russia ukDefender).target.health :: [])
        = ((processNPCAttack 0 0 npcBrawler (some 7) [ukDefender] aiZero).updatedTarget.map
            OnlinePlayer.health).toList := by
  have h1 : (handleAttack 0 0 .russia ukDefender).target.health = 92 := by
    norm_num [handleAttack, ukDefender, finalDamage, defenseMultiplier, DEFENSE_VALUES,
      baseDamageRoll, WEAPON_DAMAGE]
  have h2 : (processNPCAttack 0 0 npcBrawler (some 7) [ukDefender] aiZero).updatedTarget =
      some { ukDefender with health := 98 } := by
    rw [processNPCAttack_live 0 0 npcBrawler 7 [ukDefender] aiZero ukDefender
      (by simp [ukDefender]) rfl]
    norm_num [ukDefender, npcActualDamage, npcDamageRoll]
  refine ⟨h1, by rw [h2]; rfl, ?_⟩
  rw [h1, h2]
  norm_num [ukDefender]

/-- A wandering AI state with an already-reached wander target at the
origin. -/
def aiWander : AIState :=
  { behaviorType := .passive, targetId := none, lastDecisionTime := 0
    wanderTarget := some ⟨0, 0⟩, fleeTarget := none, isResting := false, restUntil := 0
    lastAttackTime := 0, lastDefendTime := 0 }

/-- C9: an NPC out of reach moves toward its wander target, and within 0.5
units movement stops (`moveDirection` becomes none) — but the wander target
itself is *not* cleared: the next decision cycle still carries the same
stale wander target, contradicting the source's own "clear it" comment. -/
theorem wander_arrival_keeps_target :
    (determineNextAction 0 (1/2) { npcBrawler with x := -5 } aiWander []
        DEFAULT_AI_CONFIG).moveDirection = some ⟨5, 0⟩
    ∧ (determineNextAction 0 (1/2) npcBrawler aiWander []
        DEFAULT_AI_CONFIG).moveDirection = none
    ∧ (updateAIState 1000 npcBrawler aiWander [] randKeep).wanderTarget = some ⟨0, 0⟩
    ∧ (updateAIState 1000 npcBrawler aiWander [] randKeep).wanderTarget ≠ none := by
  refine ⟨?_, ?_, ?_, ?_⟩
  · norm_num [determineNextAction, lookupTarget, aiWander, npcBrawler]
  · norm_num [determineNextAction, lookupTarget, aiWander, npcBrawler]
  · norm_num [updateAIState, aiWander, npcBrawler, randKeep, findNearestPlayer,
      DEFAULT_AI_CONFIG, List.foldl]
    split <;> simp_all
  · norm_num [updateAIState, aiWander, npcBrawler, randKeep, findNearestPlayer,
      DEFAULT_AI_CONFIG, List.foldl]
    split <;> simp_all
